import Mathlib

/-!
Shallow embedding of the KnExplorer single-page application (src/app.js).

The application's data (articles, favorites, controller state) is embedded as
Lean structures; the stateful controller methods become pure state-passing
functions.  The remote provider (network fetches) and the browser key-value
store are external collaborators and are passed in as oracle parameters.
JavaScript's Math.random-driven index draws are modelled by a function
`rand : Nat -> Nat` where `rand n` stands for `Math.floor(Math.random() * n)`
(so a valid draw satisfies `rand n < n` whenever `0 < n`).
-/

namespace KnExplorer

/-- Model of the JavaScript values that appear as `pageId` in app.js: the
Wikipedia API supplies a number (`data.pageid`), a missing field yields
`undefined`, and HTML onclick handlers pass the id back as a string. -/
inductive JSVal where
  | undef
  | num (n : Int)
  | str (s : String)
  deriving DecidableEq

/-- Whitespace class of the JavaScript regexp `\s` (also the characters JS
`String.prototype.trim` removes). -/
def isJsWhitespace (c : Char) : Bool :=
  c = ' ' || c = '\t' || c = '\n' || c = '\r' ||
  c.toNat = 11 || c.toNat = 12 || c.toNat = 160 || c.toNat = 5760 ||
  (8192 ≤ c.toNat && c.toNat ≤ 8202) ||
  c.toNat = 8232 || c.toNat = 8233 || c.toNat = 8239 || c.toNat = 8287 ||
  c.toNat = 12288 || c.toNat = 65279

/-- Decimal value of a list of digit characters (most significant first). -/
def digitsToNat (l : List Char) : Nat :=
  l.foldl (fun n c => 10 * n + (c.toNat - 48)) 0

/-- Embedding of JavaScript `String.prototype.trim` (working on the character
list so that it is structurally recursive). -/
def jsTrim (s : String) : String :=
  String.mk (((s.toList.dropWhile isJsWhitespace).reverse.dropWhile isJsWhitespace).reverse)

/-- Embedding of JavaScript `parseInt` restricted to decimal inputs: skip
leading whitespace, read an optional sign and then leading digits; `none`
models `NaN` (no digits). app.js only ever stores decimal visit counters, so
the hexadecimal and exponent forms of full JS `parseInt` are out of scope. -/
def jsParseInt (s : String) : Option Int :=
  match s.toList.dropWhile isJsWhitespace with
  | [] => none
  | c :: rest =>
    let neg := c = '-'
    let body := if c = '-' || c = '+' then rest else c :: rest
    let lead := body.takeWhile Char.isDigit
    if lead = [] then none
    else some ((if neg then -1 else 1) * (digitsToNat lead : Int))

/-- Embedding of JavaScript `ToNumber` on strings, restricted to decimal
integers: a blank string converts to 0, a full decimal numeral converts to its
value, anything else is `NaN` (modelled as `none`).  The page ids this app
compares are decimal, so the float/hex forms are out of scope. -/
def jsToNumber (s : String) : Option Int :=
  match ((s.toList.dropWhile isJsWhitespace).reverse.dropWhile isJsWhitespace).reverse with
  | [] => some 0
  | c :: rest =>
    let neg := c = '-'
    let body := if c = '-' || c = '+' then rest else c :: rest
    if body = [] then none
    else if body.all Char.isDigit then
      some ((if neg then -1 else 1) * (digitsToNat body : Int))
    else none

/-- JavaScript strict equality `===` on the page-id values of this app.
Values of different types are never strictly equal; `undefined === undefined`
holds.  (No NaN arises: page ids are integers.) -/
def strictEq : JSVal → JSVal → Bool
  | JSVal.num a, JSVal.num b => a == b
  | JSVal.str a, JSVal.str b => a == b
  | JSVal.undef, JSVal.undef => true
  | _, _ => false

/-- JavaScript loose equality `==` on the page-id values of this app: a
number and a string compare equal when `ToNumber` of the string yields that
number. -/
def looseEq : JSVal → JSVal → Bool
  | JSVal.num a, JSVal.num b => a == b
  | JSVal.str a, JSVal.str b => a == b
  | JSVal.num a, JSVal.str b => jsToNumber b == some a
  | JSVal.str a, JSVal.num b => jsToNumber a == some b
  | JSVal.undef, JSVal.undef => true
  | _, _ => false

/-- Embedding of the JavaScript idiom `v || d` for optional strings: a missing
or empty (falsy) string is replaced by the default. -/
def jsOrString (v : Option String) (d : String) : String :=
  match v with
  | none => d
  | some s => if s = "" then d else s

/-- Embedding of `a || b || null` for optional strings (empty strings are
falsy). -/
def jsOrOpt (v : Option String) (w : Option String) : Option String :=
  match v with
  | none => w
  | some s => if s = "" then w else some s

/-- Lightweight search hit as returned by `WikipediaService.searchArticles`;
only the `title` field is consumed by app.js. -/
structure SearchResult where
  title : String
  deriving DecidableEq

/-- Normalized article shape produced by
`WikipediaService.normalizeArticleData`. -/
structure Article where
  title : String
  summary : String
  url : String
  image : Option String
  imageAlt : String
  pageId : JSVal
  timestamp : String
  wordCount : Nat
  readingTime : Nat
  deriving DecidableEq

/-- Favorite entry: the spread `{...currentArticle, savedAt}` from
`UIController.toggleFavorite`. -/
structure Favorite extends Article where
  savedAt : String
  deriving DecidableEq

/-- Word counter of `WikipediaService.estimateWordCount`:
`text.split(/\s+/).filter(word => word.length > 0).length`.  The split is
embedded on the character list, cutting at every whitespace character; JS cuts
at whitespace runs, but after discarding the empty fragments both yield the
same tokens. -/
def estimateWordCount (text : String) : Nat :=
  ((text.toList.splitOnP isJsWhitespace).filter (fun w => decide (0 < w.length))).length

/-- Reading-time estimate of `WikipediaService.estimateReadingTime`:
`Math.ceil(words / 200)`, written with the exact natural-number ceiling
division `(words + 199) / 200`. -/
def estimateReadingTime (text : String) : Nat :=
  (estimateWordCount text + 200 - 1) / 200

/-- Specification-side token counter: number of maximal runs of
non-whitespace characters, computed in one pass.  The flag records whether the
scan is currently inside a token. -/
def countTokensAux : Bool → List Char → Nat
  | _, [] => 0
  | inTok, c :: cs =>
    if isJsWhitespace c then countTokensAux false cs
    else (if inTok then 0 else 1) + countTokensAux true cs

/-- Number of whitespace-delimited non-empty tokens of a character list. -/
def countTokens (l : List Char) : Nat :=
  countTokensAux false l

/-- Raw provider response shape consumed by
`WikipediaService.normalizeArticleData` (the fields of the REST summary
object that app.js reads). -/
structure RawSummary where
  title : Option String
  extract : Option String
  contentUrlsDesktopPage : Option String
  thumbnailSource : Option String
  originalimageSource : Option String
  pageid : Option Int
  deriving DecidableEq

/-- Embedding of `WikipediaService.normalizeArticleData`.  `now` stands for
`new Date().toISOString()`; percent-encoding of the title in the synthesized
URL is modelled as the identity. -/
def normalizeArticleData (now : String) (data : RawSummary) : Article :=
  { title := jsOrString data.title "Unknown Title"
    summary := jsOrString data.extract "No summary available."
    url := jsOrString data.contentUrlsDesktopPage
      ("https://en.wikipedia.org/wiki/" ++ (match data.title with | some t => t | none => "undefined"))
    image := jsOrOpt data.thumbnailSource (jsOrOpt data.originalimageSource none)
    imageAlt := "Image related to " ++ (match data.title with | some t => t | none => "undefined")
    pageId := match data.pageid with | some n => JSVal.num n | none => JSVal.undef
    timestamp := now
    wordCount := estimateWordCount (jsOrString data.extract "")
    readingTime := estimateReadingTime (jsOrString data.extract "") }

/-- The fixed category configuration `CONFIG.CATEGORIES` of app.js. -/
def CATEGORIES : List (String × List String) :=
  [("history", ["history", "historical", "ancient", "medieval", "war", "empire", "civilization"]),
   ("science", ["science", "physics", "chemistry", "biology", "research", "discovery", "theory"]),
   ("technology", ["technology", "computer", "software", "engineering", "innovation", "digital"]),
   ("art", ["art", "painting", "sculpture", "artist", "museum", "culture", "creative"]),
   ("geography", ["geography", "country", "city", "mountain", "river", "continent", "location"])]

/-- Error taxonomy of the spec for provider failures.  app.js signals these
conditions by throwing `Error` values with fixed messages; the embedding keeps
the kind of the failure instead of its message text. -/
inductive ProviderError where
  | network
  | notFound
  | noResults
  deriving DecidableEq

/-- Decidable equality of provider results, used to evaluate witnesses and
counterexamples. -/
instance : DecidableEq (Except ProviderError Article) := fun x y =>
  match x, y with
  | Except.ok a, Except.ok b =>
    if h : a = b then Decidable.isTrue (by rw [h])
    else Decidable.isFalse (fun hc => h (Except.ok.inj hc))
  | Except.error a, Except.error b =>
    if h : a = b then Decidable.isTrue (by rw [h])
    else Decidable.isFalse (fun hc => h (Except.error.inj hc))
  | Except.ok _, Except.error _ => Decidable.isFalse (fun hc => Except.noConfusion hc)
  | Except.error _, Except.ok _ => Decidable.isFalse (fun hc => Except.noConfusion hc)

/-- Property names the object literal `CONFIG.CATEGORIES` inherits from
`Object.prototype`.  For these, the JavaScript access
`CONFIG.CATEGORIES[category]` walks the prototype chain and yields a truthy
inherited member (a function, or the prototype object for `__proto__`), not
`undefined`. -/
def OBJECT_PROTOTYPE_MEMBERS : List String :=
  ["constructor", "hasOwnProperty", "isPrototypeOf", "propertyIsEnumerable",
   "toLocaleString", "toString", "valueOf", "__defineGetter__", "__defineSetter__",
   "__lookupGetter__", "__lookupSetter__", "__proto__"]

/-- JavaScript value of the property access `CONFIG.CATEGORIES[category]`
when it is defined: an own keyword array, or a truthy member inherited from
`Object.prototype`. -/
inductive KeywordsVal where
  | arr (kws : List String)
  | protoMember
  deriving DecidableEq

/-- Embedding of the property access `CONFIG.CATEGORIES[category]` on the
object literal: an own key yields its keyword array; a name inherited from
`Object.prototype` yields that member; any other name yields `undefined`
(modelled as `none`). -/
def categoriesGet (category : String) : Option KeywordsVal :=
  match CATEGORIES.lookup category with
  | some kws => some (KeywordsVal.arr kws)
  | none =>
    if category ∈ OBJECT_PROTOTYPE_MEMBERS then some KeywordsVal.protoMember
    else none

/-- Embedding of `WikipediaService.fetchCategoryArticle`.  The search endpoint
and the by-title fetch are oracle parameters; `rand n` models
`Math.floor(Math.random() * n)`.  The `|| [category]` fallback applies only
when the property access yields `undefined` (inherited members and arrays are
both truthy); indexing a truthy non-array inherited member at any numeric
index yields `undefined`, which `URLSearchParams` in `searchArticles`
stringifies to the query string "undefined". -/
def fetchCategoryArticle (search : String → Nat → List SearchResult)
    (fetchByTitle : String → Except ProviderError Article)
    (rand : Nat → Nat) (category : String) : Except ProviderError Article :=
  let keywords := (categoriesGet category).getD (KeywordsVal.arr [category])
  let randomKeyword :=
    match keywords with
    | KeywordsVal.arr kws => kws.getD (rand kws.length) ""
    | KeywordsVal.protoMember => "undefined"
  let searchResults := search randomKeyword 20
  if searchResults.length = 0 then
    Except.error ProviderError.noResults
  else
    let randomResult := searchResults.getD (rand (min 5 searchResults.length)) { title := "" }
    fetchByTitle randomResult.title

/-- Severity levels of `UIController.showStatus`. -/
inductive Severity where
  | info
  | error
  | warning
  deriving DecidableEq

/-- Transient status notification. -/
structure StatusMsg where
  message : String
  severity : Severity
  deriving DecidableEq

/-- View state of the article pane: skeleton visible (loading), article card
visible, or the error panel visible with the failure that caused it. -/
inductive ViewState where
  | idle
  | loading
  | displaying
  | error (e : ProviderError)
  deriving DecidableEq

/-- Controller-owned application state (the fields of `AppState` in app.js
that the core logic reads or writes, together with the derived view state).
`lastArticle` mirrors the persisted `rke_lastArticle` store entry. -/
structure AppState where
  currentArticle : Option Article
  favorites : List Favorite
  theme : String
  autoFetchEnabled : Bool
  visitCount : Int
  selectedCategory : Option String
  lastArticle : Option Article
  view : ViewState
  status : Option StatusMsg
  deriving DecidableEq

/-- Embedding of `UIController.showStatus`. -/
def showStatus (msg : String) (sev : Severity) (st : AppState) : AppState :=
  { st with status := some { message := msg, severity := sev } }

/-- Embedding of `UIController.showSkeleton`. -/
def showSkeleton (st : AppState) : AppState :=
  { st with view := ViewState.loading }

/-- Embedding of `UIController.showError`; the embedding records the kind of
the failure where app.js records its message. -/
def showError (e : ProviderError) (st : AppState) : AppState :=
  { st with view := ViewState.error e }

/-- Embedding of `UIController.displayArticle`: sets the current article,
persists it as the last article, and shows the article card. -/
def displayArticle (a : Article) (st : AppState) : AppState :=
  { st with currentArticle := some a, lastArticle := some a, view := ViewState.displaying }

/-- Embedding of `UIController.clearCategorySelection`. -/
def clearCategorySelection (st : AppState) : AppState :=
  { st with selectedCategory := none }

/-- Embedding of `UIController.toggleFavorite`; `now` stands for
`new Date().toISOString()`. -/
def toggleFavorite (now : String) (st : AppState) : AppState :=
  match st.currentArticle with
  | none => st
  | some cur =>
    match st.favorites.findIdx? (fun f => strictEq f.pageId cur.pageId) with
    | some i =>
      showStatus "Removed from favorites" Severity.info
        { st with favorites := st.favorites.eraseIdx i }
    | none =>
      showStatus "Added to favorites" Severity.info
        { st with favorites := st.favorites ++ [{ toArticle := cur, savedAt := now }] }

/-- Embedding of `UIController.removeFavorite`: keeps the favorites whose
page id is not loosely equal (JS `!=`) to the argument. -/
def removeFavorite (pid : JSVal) (st : AppState) : AppState :=
  showStatus "Removed from favorites" Severity.info
    { st with favorites := st.favorites.filter (fun f => !(looseEq f.pageId pid)) }

/-- Embedding of `UIController.openFavorite`: finds a favorite by loose
(JS `==`) page-id equality and displays it. -/
def openFavorite (pid : JSVal) (st : AppState) : AppState :=
  match st.favorites.find? (fun f => looseEq f.pageId pid) with
  | some f => showStatus ("Opened: " ++ f.title) Severity.info (displayArticle f.toArticle st)
  | none => st

/-- Embedding of `UIController.handleSearch`.  Besides the new state it
returns the list of search-endpoint calls `(query, limit)` the handler
issued, so that theorems can speak about which provider calls happen. -/
def handleSearch (search : String → Nat → List SearchResult)
    (fetchByTitle : String → Except ProviderError Article)
    (st : AppState) (input : String) : AppState × List (String × Nat) :=
  let query := jsTrim input
  if query = "" then (st, [])
  else
    let st1 := showStatus "Searching Wikipedia..." Severity.info
      (showSkeleton (clearCategorySelection st))
    let results := search query 1
    if results.length = 0 then
      (showStatus "Search failed - try another term" Severity.error
        (showError ProviderError.noResults st1), [(query, 1)])
    else
      match fetchByTitle (results.getD 0 { title := "" }).title with
      | Except.ok a =>
        (showStatus ("Found article: " ++ a.title) Severity.info (displayArticle a st1),
          [(query, 1)])
      | Except.error e =>
        (showStatus "Search failed - try another term" Severity.error (showError e st1),
          [(query, 1)])

/-- Top-level provider call a "next" intent makes: the plain random endpoint
or the category path. -/
inductive ProviderCall where
  | random
  | category (c : String)
  deriving DecidableEq

/-- Embedding of `UIController.fetchRandomArticle` (the "next" intent): uses
the category path when a category is selected, the plain random fetch
otherwise.  The second component reports which path was taken. -/
def fetchRandomArticle (fetchRandom : Except ProviderError Article)
    (fetchCategory : String → Except ProviderError Article)
    (st : AppState) : AppState × ProviderCall :=
  let st1 := showSkeleton st
  match st.selectedCategory with
  | some c =>
    match fetchCategory c with
    | Except.ok a =>
      (displayArticle a
        (showStatus ("Found another " ++ c ++ " article: " ++ a.title) Severity.info st1),
        ProviderCall.category c)
    | Except.error e =>
      (showStatus "Failed to fetch article" Severity.error (showError e st1),
        ProviderCall.category c)
  | none =>
    match fetchRandom with
    | Except.ok a =>
      (displayArticle a
        (showStatus "Fetched random article from Wikipedia" Severity.info st1),
        ProviderCall.random)
    | Except.error e =>
      (showStatus "Failed to fetch article" Severity.error (showError e st1),
        ProviderCall.random)

/-- Embedding of `UIController.handleCategoryClick` (the `selectCategory`
intent): records the selected category and immediately fetches an article
from it. -/
def handleCategoryClick (fetchCategory : String → Except ProviderError Article)
    (c : String) (st : AppState) : AppState :=
  let st1 := showStatus ("Searching " ++ c ++ " articles...") Severity.info
    (showSkeleton { st with selectedCategory := some c })
  match fetchCategory c with
  | Except.ok a =>
    showStatus ("Found " ++ c ++ " article: " ++ a.title) Severity.info (displayArticle a st1)
  | Except.error e =>
    showStatus ("Failed to load " ++ c ++ " article") Severity.error (showError e st1)

/-- Iterated "next" intents: run `fetchRandomArticle` the given number of
times, collecting the top-level provider call of each round. -/
def runNextIntents (fetchRandom : Except ProviderError Article)
    (fetchCategory : String → Except ProviderError Article) :
    Nat → AppState → AppState × List ProviderCall
  | 0, st => (st, [])
  | n + 1, st =>
    let r := fetchRandomArticle fetchRandom fetchCategory st
    let rest := runNextIntents fetchRandom fetchCategory n r.1
    (rest.1, r.2 :: rest.2)

/-- One call of a favorites-mutating sequence: a `toggleFavorite` call
(carrying the current article at that moment, possibly absent, and the
timestamp) or a `removeFavorite` call. -/
inductive FavOp where
  | toggle (cur : Option Article) (now : String)
  | remove (pid : JSVal)

/-- Apply one favorites-mutating call to the application state. -/
def applyFavOp (st : AppState) (op : FavOp) : AppState :=
  match op with
  | FavOp.toggle cur now => toggleFavorite now { st with currentArticle := cur }
  | FavOp.remove pid => removeFavorite pid st

/-- Run a sequence of `toggleFavorite` / `removeFavorite` calls. -/
def runFavOps (st : AppState) (ops : List FavOp) : AppState :=
  ops.foldl applyFavOp st

/-- Pairwise distinctness of the stored page ids of a favorites collection. -/
def FavsDistinct (l : List Favorite) : Prop :=
  l.Pairwise (fun a b => a.pageId ≠ b.pageId)

/-- Proof-side restatement of the favorites effect of one `toggleFavorite`
call with current article `cur`: erase the first strict-equality match, or
append a new favorite when there is none. -/
def favStep (cur : Article) (now : String) (l : List Favorite) : List Favorite :=
  match l.findIdx? (fun f => strictEq f.pageId cur.pageId) with
  | some i => l.eraseIdx i
  | none => l ++ [{ toArticle := cur, savedAt := now }]

/-- Embedding of `AppState.loadFavorites`.  The argument is the outcome of
`JSON.parse(localStorage.getItem(...))`: an exception for a corrupt stored
value, `none` for a missing key (`JSON.parse(null)` evaluates to `null`), or
the stored list.  `null` is falsy, so `|| []` substitutes the empty list. -/
def loadFavorites (stored : Except Unit (Option (List Favorite))) : List Favorite :=
  match stored with
  | Except.error _ => []
  | Except.ok none => []
  | Except.ok (some favs) => favs

/-- Embedding of `AppState.loadTheme`: `localStorage.getItem(...) || 'light'`
(a missing key yields `null`, which is falsy, as is the empty string). -/
def loadTheme (stored : Option String) : String :=
  match stored with
  | none => "light"
  | some s => if s = "" then "light" else s

/-- Embedding of `AppState.loadAutoFetch`:
`localStorage.getItem(...) === 'true'`. -/
def loadAutoFetch (stored : Option String) : Bool :=
  match stored with
  | none => false
  | some s => s == "true"

/-- Embedding of `AppState.loadVisitCount`: substitute 0 for a missing or
unparseable stored counter (`parseInt(...) || 0`), add the per-session-start
increment, store the new value back, and return it.  The first component is
the returned count, the second the string written back to the store. -/
def loadVisitCount (stored : Option String) : Int × String :=
  let count : Int :=
    match stored with
    | none => 0
    | some s => (jsParseInt s).getD 0
  let newCount := count + 1
  (newCount, toString newCount)

/-- Concrete article with numeric page id 1, for witnesses. -/
def exampleArticle1 : Article :=
  { title := "Alpha", summary := "one two", url := "https://example.org/a", image := none,
    imageAlt := "Image related to Alpha", pageId := JSVal.num 1, timestamp := "t0",
    wordCount := 2, readingTime := 1 }

/-- Concrete article with numeric page id 2, for witnesses. -/
def exampleArticle2 : Article :=
  { title := "Beta", summary := "three", url := "https://example.org/b", image := none,
    imageAlt := "Image related to Beta", pageId := JSVal.num 2, timestamp := "t0",
    wordCount := 1, readingTime := 1 }

/-- Concrete favorite holding `exampleArticle1`, for witnesses. -/
def exampleFavorite1 : Favorite :=
  { toArticle := exampleArticle1, savedAt := "t1" }

/-- Concrete application state holding one favorite, for witnesses. -/
def exampleState : AppState :=
  { currentArticle := none, favorites := [exampleFavorite1], theme := "light",
    autoFetchEnabled := false, visitCount := 1, selectedCategory := none,
    lastArticle := none, view := ViewState.idle, status := none }

/-- Concrete application state with a current article, for witnesses. -/
def exampleStateCur : AppState :=
  { exampleState with currentArticle := some exampleArticle2 }

/-- Concrete article with numeric page id 123, for witnesses. -/
def exampleArticle123 : Article :=
  { title := "Gamma", summary := "four five six", url := "https://example.org/g", image := none,
    imageAlt := "Image related to Gamma", pageId := JSVal.num 123, timestamp := "t0",
    wordCount := 3, readingTime := 1 }

/-- Concrete application state whose single favorite stores the numeric page
id 123, for witnesses. -/
def exampleState123 : AppState :=
  { exampleState with favorites := [{ toArticle := exampleArticle123, savedAt := "t1" }] }

/-- Search oracle returning no hits, for witnesses. -/
def searchNone : String → Nat → List SearchResult := fun _ _ => []

/-- Search oracle returning one hit, for witnesses. -/
def searchOne : String → Nat → List SearchResult := fun _ _ => [{ title := "Alpha" }]

/-- By-title oracle that always succeeds, for witnesses. -/
def fetchOk : String → Except ProviderError Article := fun _ => Except.ok exampleArticle1

/-- By-title oracle that always fails with a network error, for witnesses. -/
def fetchFail : String → Except ProviderError Article := fun _ => Except.error ProviderError.network

/-- Random-draw oracle always picking index 0, for witnesses. -/
def randZero : Nat → Nat := fun _ => 0

/-- Search oracle echoing its query as the single hit title, so a result
reveals which query was issued; for witnesses and counterexamples. -/
def searchEcho : String → Nat → List SearchResult := fun q _ => [{ title := q }]

/-- By-title oracle echoing the requested title, so a result reveals which
title was fetched; for witnesses and counterexamples. -/
def fetchTitleEcho : String → Except ProviderError Article :=
  fun t => Except.ok { exampleArticle1 with title := t }

/- ===== Helper lemmas ===== -/

theorem strictEq_iff (u v : JSVal) : strictEq u v = true ↔ u = v := by
  cases u <;> cases v <;> simp [strictEq]

theorem eraseIdx_of_findIdx? {α : Type} {p : α → Bool} :
    ∀ (l : List α) (i : Nat), l.findIdx? p = some i → l.eraseIdx i = l.eraseP p := by
  intro l
  induction l with
  | nil => intro i h; simp at h
  | cons x xs ih =>
    intro i h
    cases hp : p x with
    | true =>
      rw [List.findIdx?_cons, if_pos hp] at h
      cases h
      simp [List.eraseP_cons_of_pos hp]
    | false =>
      rw [List.findIdx?_cons, if_neg (by simp [hp]), List.findIdx?_succ] at h
      cases hj : xs.findIdx? p with
      | none => rw [hj] at h; simp at h
      | some j =>
        rw [hj] at h
        simp only [Option.map_some'] at h
        cases h
        rw [List.eraseIdx_cons_succ, List.eraseP_cons_of_neg (by simp [hp]), ih j hj]

theorem toggleFavorite_currentArticle (now : String) (st : AppState) :
    (toggleFavorite now st).currentArticle = st.currentArticle := by
  cases h : st.currentArticle with
  | none => simp [toggleFavorite, h]
  | some cur =>
    cases hi : st.favorites.findIdx? (fun f => strictEq f.pageId cur.pageId) <;>
      simp [toggleFavorite, h, hi, showStatus]

theorem toggleFavorite_favorites (now : String) (st : AppState) (cur : Article)
    (h : st.currentArticle = some cur) :
    (toggleFavorite now st).favorites = favStep cur now st.favorites := by
  cases hi : st.favorites.findIdx? (fun f => strictEq f.pageId cur.pageId) <;>
    simp [toggleFavorite, favStep, h, hi, showStatus]

theorem toggleFavorite_distinct (now : String) (st : AppState)
    (h : FavsDistinct st.favorites) : FavsDistinct (toggleFavorite now st).favorites := by
  cases hc : st.currentArticle with
  | none => simpa [toggleFavorite, hc] using h
  | some cur =>
    rw [toggleFavorite_favorites now st cur hc]
    unfold favStep
    cases hi : st.favorites.findIdx? (fun f => strictEq f.pageId cur.pageId) with
    | some i => exact List.Pairwise.sublist (List.eraseIdx_sublist _ _) h
    | none =>
      rw [FavsDistinct, List.pairwise_append]
      refine ⟨h, List.pairwise_singleton _ _, ?_⟩
      intro a ha b hb
      simp only [List.mem_singleton] at hb
      subst hb
      intro hEq
      have htrue := (strictEq_iff a.pageId cur.pageId).mpr hEq
      rw [List.findIdx?_eq_none_iff] at hi
      have hfalse := hi a ha
      simp only at hfalse
      rw [htrue] at hfalse
      exact Bool.noConfusion hfalse

theorem removeFavorite_distinct (pid : JSVal) (st : AppState)
    (h : FavsDistinct st.favorites) : FavsDistinct (removeFavorite pid st).favorites := by
  simp only [removeFavorite, showStatus]
  exact List.Pairwise.sublist (List.filter_sublist _) h

theorem applyFavOp_distinct (st : AppState) (op : FavOp)
    (h : FavsDistinct st.favorites) : FavsDistinct (applyFavOp st op).favorites := by
  cases op with
  | toggle cur now => exact toggleFavorite_distinct now _ h
  | remove pid => exact removeFavorite_distinct pid _ h

/-- C1: for every sequence of toggleFavorite and removeFavorite calls starting
from a favorites collection with pairwise-distinct pageId values, the
favorites collection never contains two entries with equal pageId. -/
theorem favorites_unique_invariant (st : AppState) (h : FavsDistinct st.favorites)
    (ops : List FavOp) : FavsDistinct (runFavOps st ops).favorites := by
  induction ops generalizing st with
  | nil => exact h
  | cons op rest ih => exact ih _ (applyFavOp_distinct st op h)

/-- Witness for C1 at a concrete state and call sequence. -/
theorem favorites_unique_invariant_witness :
    FavsDistinct (runFavOps exampleState
      [FavOp.toggle (some exampleArticle2) "t2", FavOp.remove (JSVal.str "1")]).favorites :=
  favorites_unique_invariant exampleState
    (by simp [FavsDistinct, exampleState]) _

theorem favStep_twice_mem (cur : Article) (n1 n2 : String) (l : List Favorite)
    (hd : FavsDistinct l) (pid : JSVal) :
    pid ∈ (favStep cur n2 (favStep cur n1 l)).map (fun f => f.pageId) ↔
      pid ∈ l.map (fun f => f.pageId) := by
  cases h1 : l.findIdx? (fun f => strictEq f.pageId cur.pageId) with
  | none =>
    have hstep1 : favStep cur n1 l = l ++ [{ toArticle := cur, savedAt := n1 }] := by
      simp [favStep, h1]
    have hpnew : (fun f => strictEq f.pageId cur.pageId)
        ({ toArticle := cur, savedAt := n1 } : Favorite) = true :=
      (strictEq_iff _ _).mpr rfl
    have hsome : ∃ j, (l ++ [({ toArticle := cur, savedAt := n1 } : Favorite)]).findIdx?
        (fun f => strictEq f.pageId cur.pageId) = some j := by
      rw [← Option.isSome_iff_exists, List.findIdx?_isSome]
      simp [List.any_append, hpnew]
    obtain ⟨j, hj⟩ := hsome
    have hall : ∀ b ∈ l, ¬ (strictEq b.pageId cur.pageId = true) := by
      intro b hb
      have hfb := List.findIdx?_eq_none_iff.mp h1 b hb
      simp only at hfb
      simp [hfb]
    have hstep2 : favStep cur n2 (favStep cur n1 l) = l := by
      rw [hstep1]
      have hm : favStep cur n2 (l ++ [{ toArticle := cur, savedAt := n1 }]) =
          (l ++ [({ toArticle := cur, savedAt := n1 } : Favorite)]).eraseIdx j := by
        simp [favStep, hj]
      rw [hm, eraseIdx_of_findIdx? _ _ hj, List.eraseP_append_right _ hall]
      have hrefl : strictEq cur.pageId cur.pageId = true := (strictEq_iff _ _).mpr rfl
      simp [List.eraseP_cons, hrefl]
    rw [hstep2]
  | some i =>
    have hstep1 : favStep cur n1 l = l.eraseP (fun f => strictEq f.pageId cur.pageId) := by
      rw [show favStep cur n1 l = l.eraseIdx i by simp [favStep, h1]]
      exact eraseIdx_of_findIdx? _ _ h1
    obtain ⟨hlt, hpe, -⟩ := List.findIdx?_eq_some_iff_getElem.mp h1
    have hpe' : (fun f => strictEq f.pageId cur.pageId) l[i] = true := hpe
    obtain ⟨a, l₁, l₂, hl₁, hpa, hl, he⟩ :=
      @List.exists_of_eraseP Favorite (fun f => strictEq f.pageId cur.pageId) l _
        (List.getElem_mem hlt) hpe'
    have hap : a.pageId = cur.pageId := (strictEq_iff _ _).mp hpa
    have hd' : ∀ b ∈ l₂, a.pageId ≠ b.pageId := by
      rw [FavsDistinct, hl, List.pairwise_append] at hd
      exact (List.pairwise_cons.mp hd.2.1).1
    have hall2 : ∀ b ∈ l₁ ++ l₂, strictEq b.pageId cur.pageId = false := by
      intro b hb
      rw [List.mem_append] at hb
      cases hb with
      | inl hb1 =>
        have := hl₁ b hb1
        simpa using this
      | inr hb2 =>
        cases hsb : strictEq b.pageId cur.pageId with
        | false => rfl
        | true =>
          have hbp : b.pageId = cur.pageId := (strictEq_iff _ _).mp hsb
          exact absurd (hap.trans hbp.symm) (hd' b hb2)

    have hnone : (l₁ ++ l₂).findIdx? (fun f => strictEq f.pageId cur.pageId) = none :=
      List.findIdx?_eq_none_iff.mpr hall2
    have hstep2 : favStep cur n2 (favStep cur n1 l) =
        (l₁ ++ l₂) ++ [{ toArticle := cur, savedAt := n2 }] := by
      rw [hstep1, he]
      simp [favStep, hnone]
    rw [hstep2, hl]
    simp only [List.map_append, List.map_cons, List.map_nil, List.mem_append,
      List.mem_cons, List.not_mem_nil, or_false, hap]
    tauto

/-- C2: for every state with a current Article whose favorites have distinct
page ids, calling toggleFavorite twice in succession restores the original
favorites membership (the set of page ids in favorites is unchanged); when
there is no current Article, toggleFavorite is a no-op. -/
theorem toggle_toggle_membership :
    (∀ (st : AppState) (cur : Article) (n1 n2 : String),
      st.currentArticle = some cur → FavsDistinct st.favorites →
      ∀ pid,
        pid ∈ (toggleFavorite n2 (toggleFavorite n1 st)).favorites.map (fun f => f.pageId) ↔
        pid ∈ st.favorites.map (fun f => f.pageId)) ∧
    (∀ (st : AppState) (now : String), st.currentArticle = none → toggleFavorite now st = st) := by
  constructor
  · intro st cur n1 n2 hc hd pid
    have hc1 : (toggleFavorite n1 st).currentArticle = some cur := by
      rw [toggleFavorite_currentArticle, hc]
    rw [toggleFavorite_favorites n2 _ cur hc1, toggleFavorite_favorites n1 st cur hc]
    exact favStep_twice_mem cur n1 n2 st.favorites hd pid
  · intro st now hc
    simp [toggleFavorite, hc]

/-- Witness for C2 at a concrete state, timestamps and page id. -/
theorem toggle_toggle_membership_witness :
    JSVal.num 2 ∈ (toggleFavorite "t3" (toggleFavorite "t2" exampleStateCur)).favorites.map
        (fun f => f.pageId) ↔
      JSVal.num 2 ∈ exampleStateCur.favorites.map (fun f => f.pageId) :=
  toggle_toggle_membership.1 exampleStateCur exampleArticle2 "t2" "t3" rfl
    (by simp [FavsDistinct, exampleStateCur, exampleState]) (JSVal.num 2)

theorem splitOnP_go_count (l : List Char) :
    ∀ acc : List Char,
      ((List.splitOnP.go isJsWhitespace l acc).filter (fun w => decide (0 < w.length))).length =
        (if acc = [] then 0 else 1) + countTokensAux (!acc.isEmpty) l := by
  induction l with
  | nil =>
    intro acc
    cases acc with
    | nil => simp [List.splitOnP.go, countTokensAux]
    | cons a as => simp [List.splitOnP.go, countTokensAux]
  | cons c cs ih =>
    intro acc
    cases hw : isJsWhitespace c with
    | true =>
      have hgo : List.splitOnP.go isJsWhitespace (c :: cs) acc =
          acc.reverse :: List.splitOnP.go isJsWhitespace cs [] := by
        simp [List.splitOnP.go, hw]
      rw [hgo]
      have hrest := ih []
      cases acc with
      | nil => simpa [countTokensAux, hw, List.filter_cons] using hrest
      | cons a as =>
        simp [countTokensAux, hw, List.filter_cons] at hrest ⊢
        omega
    | false =>
      have hgo : List.splitOnP.go isJsWhitespace (c :: cs) acc =
          List.splitOnP.go isJsWhitespace cs (c :: acc) := by
        simp [List.splitOnP.go, hw]
      rw [hgo, ih (c :: acc)]
      cases acc <;> simp [countTokensAux, hw]

theorem estimateWordCount_eq_countTokens (text : String) :
    estimateWordCount text = countTokens text.toList := by
  rw [estimateWordCount, countTokens, List.splitOnP, splitOnP_go_count text.toList []]
  simp

/-- C4: for every summary string, the word count equals the number of
whitespace-delimited non-empty tokens (0 for the empty string), the reading
time is the ceiling of wordCount / 200 (characterized as the least m with
wordCount at most 200 * m), hence 0 when the word count is 0 and at least 1
when it is positive; and the normalized Article carries exactly these two
derived fields computed from its raw summary text. -/
theorem wordCount_readingTime_spec :
    (∀ s : String, estimateWordCount s = countTokens s.toList) ∧
    estimateWordCount "" = 0 ∧
    (∀ s : String,
      estimateWordCount s ≤ 200 * estimateReadingTime s ∧
      (∀ m : Nat, estimateWordCount s ≤ 200 * m → estimateReadingTime s ≤ m) ∧
      (estimateWordCount s = 0 → estimateReadingTime s = 0) ∧
      (0 < estimateWordCount s → 1 ≤ estimateReadingTime s)) ∧
    (∀ (now : String) (data : RawSummary),
      (normalizeArticleData now data).wordCount = estimateWordCount (jsOrString data.extract "") ∧
      (normalizeArticleData now data).readingTime =
        estimateReadingTime (jsOrString data.extract "")) := by
  refine ⟨estimateWordCount_eq_countTokens, by decide, ?_, ?_⟩
  · intro s
    refine ⟨?_, fun m hm => ?_, fun h0 => ?_, fun hpos => ?_⟩ <;>
      simp only [estimateReadingTime] at * <;> omega
  · intro now data
    exact ⟨rfl, rfl⟩

/-- Witness for C4 at a concrete summary string. -/
theorem wordCount_readingTime_spec_witness :
    estimateReadingTime "one two  three" ≤ 1 ∧ 1 ≤ estimateReadingTime "one two  three" :=
  ⟨(wordCount_readingTime_spec.2.2.1 "one two  three").2.1 1 (by decide),
   (wordCount_readingTime_spec.2.2.1 "one two  three").2.2.2 (by decide)⟩

theorem lookup_keywords_nonempty (c : String) (kws : List String)
    (h : CATEGORIES.lookup c = some kws) : 0 < kws.length := by
  simp only [CATEGORIES, List.lookup] at h
  repeat' split at h
  all_goals (first | (injection h with h2; subst h2; decide) | injection h)

theorem getD_mem_of_lt {α : Type} (l : List α) (i : Nat) (d : α) (h : i < l.length) :
    l.getD i d ∈ l := by
  rw [List.getD_eq_getElem?_getD, List.getElem?_eq_getElem h]
  simp [List.getElem_mem]

/-- C3: for every category in the fixed configured mapping, fetchForCategory
samples one keyword from that category's keyword set, calls search with that
keyword and limit 20, fails with a NoResults error when the search returns an
empty sequence, and otherwise samples its final title only from the first
min(5, resultCount) search results before fetching that title's Article; when
the search returns 20 results the final title comes from the first 5. -/
theorem fetchCategoryArticle_algorithm
    (search : String → Nat → List SearchResult)
    (fetchByTitle : String → Except ProviderError Article)
    (rand : Nat → Nat) (category : String) (kws : List String)
    (hcat : CATEGORIES.lookup category = some kws)
    (hrand : ∀ n, 0 < n → rand n < n) :
    kws.getD (rand kws.length) "" ∈ kws ∧
    (search (kws.getD (rand kws.length) "") 20 = [] →
      fetchCategoryArticle search fetchByTitle rand category =
        Except.error ProviderError.noResults) ∧
    (∀ res, search (kws.getD (rand kws.length) "") 20 = res → res ≠ [] →
      ∃ i, i < min 5 res.length ∧
        fetchCategoryArticle search fetchByTitle rand category =
          fetchByTitle (res.getD i { title := "" }).title) ∧
    (∀ res, search (kws.getD (rand kws.length) "") 20 = res → res.length = 20 →
      ∃ i, i < 5 ∧
        fetchCategoryArticle search fetchByTitle rand category =
          fetchByTitle (res.getD i { title := "" }).title) := by
  have hkw : 0 < kws.length := lookup_keywords_nonempty category kws hcat
  have hget : categoriesGet category = some (KeywordsVal.arr kws) := by
    simp [categoriesGet, hcat]
  refine ⟨getD_mem_of_lt _ _ _ (hrand _ hkw), ?_, ?_, ?_⟩
  · intro hempty
    simp only [fetchCategoryArticle, hget, Option.getD_some]
    rw [hempty]
    simp
  · intro res hres hne
    have hpos : 0 < res.length := List.length_pos.mpr hne
    refine ⟨rand (min 5 res.length), hrand _ (by omega), ?_⟩
    have hne0 : ¬ (res.length = 0) := by omega
    simp only [fetchCategoryArticle, hget, Option.getD_some]
    rw [hres]
    simp [hne0]
  · intro res hres hlen
    have hmin : min 5 res.length = 5 := by
      rw [hlen]
      decide
    refine ⟨rand (min 5 res.length), ?_, ?_⟩
    · rw [hmin]
      exact hrand 5 (by omega)
    · have hne0 : ¬ (res.length = 0) := by omega
      simp only [fetchCategoryArticle, hget, Option.getD_some]
      rw [hres]
      simp [hne0]

/-- Witness for C3: on the history category with a search oracle returning no
results, the category fetch fails with NoResults. -/
theorem fetchCategoryArticle_algorithm_witness :
    fetchCategoryArticle searchNone fetchOk randZero "history" =
      Except.error ProviderError.noResults :=
  (fetchCategoryArticle_algorithm searchNone fetchOk randZero "history"
    ["history", "historical", "ancient", "medieval", "war", "empire", "civilization"]
    (by decide) (fun n hn => hn)).2.1 rfl

/-- Counterexample to C9 as stated: "constructor" is not a key of the
configured category mapping, yet fetchCategoryArticle does not fall back to
the category string — the truthy `Object.prototype.constructor` inherited
member defeats the `|| [category]` fallback, indexing it yields `undefined`,
and the search keyword becomes the string "undefined".  With echo oracles the
returned title reveals the query: it is "undefined", not "constructor". -/
theorem fetchCategoryArticle_unknown_category_counterexample :
    CATEGORIES.lookup "constructor" = none ∧
    fetchCategoryArticle searchEcho fetchTitleEcho randZero "constructor" =
      fetchTitleEcho "undefined" ∧
    fetchCategoryArticle searchEcho fetchTitleEcho randZero "constructor" ≠
      fetchTitleEcho "constructor" := by
  decide

/-- C9 (amended): for every category string that is neither a key of the
fixed configured category mapping nor a property name inherited from
`Object.prototype`, fetchForCategory does not fail: it falls back to the
category string itself as the single keyword and proceeds with the normal
search-and-sample algorithm.  (For inherited names such as "constructor" the
truthy prototype member defeats the fallback; see the counterexample.) -/
theorem fetchCategoryArticle_unknown_category
    (search : String → Nat → List SearchResult)
    (fetchByTitle : String → Except ProviderError Article)
    (rand : Nat → Nat) (category : String)
    (hcat : CATEGORIES.lookup category = none)
    (hproto : ¬ category ∈ OBJECT_PROTOTYPE_MEMBERS)
    (hrand : ∀ n, 0 < n → rand n < n) :
    (search category 20 = [] →
      fetchCategoryArticle search fetchByTitle rand category =
        Except.error ProviderError.noResults) ∧
    (∀ res, search category 20 = res → res ≠ [] →
      ∃ i, i < min 5 res.length ∧
        fetchCategoryArticle search fetchByTitle rand category =
          fetchByTitle (res.getD i { title := "" }).title) := by
  have hr1 : rand 1 = 0 := by
    have := hrand 1 (by omega)
    omega
  have hkw : ([category].getD (rand 1) "") = category := by
    simp [hr1]
  have hget : categoriesGet category = none := by
    simp [categoriesGet, hcat, hproto]
  constructor
  · intro hempty
    simp only [fetchCategoryArticle, hget, Option.getD_none, List.length_singleton, hkw]
    rw [hempty]
    simp
  · intro res hres hne
    have hpos : 0 < res.length := List.length_pos.mpr hne
    refine ⟨rand (min 5 res.length), hrand _ (by omega), ?_⟩
    have hne0 : ¬ (res.length = 0) := by omega
    simp only [fetchCategoryArticle, hget, Option.getD_none, List.length_singleton, hkw]
    rw [hres]
    simp [hne0]

/-- Witness for C9: an unmapped, non-inherited category string is used as the
search keyword itself; with a search oracle returning no hits the fetch fails
with NoResults. -/
theorem fetchCategoryArticle_unknown_category_witness :
    fetchCategoryArticle searchNone fetchOk randZero "cheese" =
      Except.error ProviderError.noResults :=
  (fetchCategoryArticle_unknown_category searchNone fetchOk randZero "cheese"
    (by decide) (by decide) (fun n hn => hn)).1 rfl

/-- C5: for every input whose trimmed form is empty, the search intent handler
is a no-op (the whole state, in particular current Article, selectedCategory
and view state, is unchanged, and no provider call is made); for every input
with a non-empty trimmed form it clears selectedCategory, calls search with
the trimmed query and limit 1, and enters the NoResults error view when the
search returns an empty sequence. -/
theorem handleSearch_spec :
    (∀ (search : String → Nat → List SearchResult)
       (fetchByTitle : String → Except ProviderError Article)
       (st : AppState) (input : String), jsTrim input = "" →
      handleSearch search fetchByTitle st input = (st, [])) ∧
    (∀ (search : String → Nat → List SearchResult)
       (fetchByTitle : String → Except ProviderError Article)
       (st : AppState) (input : String), jsTrim input ≠ "" →
      (handleSearch search fetchByTitle st input).2 = [(jsTrim input, 1)] ∧
      (handleSearch search fetchByTitle st input).1.selectedCategory = none ∧
      (search (jsTrim input) 1 = [] →
        (handleSearch search fetchByTitle st input).1.view =
          ViewState.error ProviderError.noResults)) := by
  constructor
  · intro search fetchByTitle st input h
    simp [handleSearch, h]
  · intro search fetchByTitle st input h
    refine ⟨?_, ?_, ?_⟩
    · simp only [handleSearch, if_neg h]
      split
      · rfl
      · split <;> rfl
    · simp only [handleSearch, if_neg h]
      split
      · simp [showStatus, showError, showSkeleton, clearCategorySelection]
      · split <;>
          simp [showStatus, showError, showSkeleton, clearCategorySelection, displayArticle]
    · intro hempty
      simp only [handleSearch, if_neg h]
      rw [hempty]
      simp [showStatus, showError, showSkeleton, clearCategorySelection]

/-- Witness for C5: a whitespace-only input leaves the state unchanged and
makes no provider call. -/
theorem handleSearch_spec_witness :
    handleSearch searchNone fetchOk exampleState "   " = (exampleState, []) :=
  handleSearch_spec.1 searchNone fetchOk exampleState "   " (by decide)

/-- C6: for every Provider failure during a random-or-category fetch intent,
the Controller converts the failure to an error-severity status notification
and enters the Error view state; the current Article, the Favorites, the
theme, the auto-fetch flag, the visit count, the selected category and the
persisted last article are all unchanged. -/
theorem fetchRandomArticle_error_frame
    (fetchRandom : Except ProviderError Article)
    (fetchCategory : String → Except ProviderError Article)
    (st : AppState) (e : ProviderError)
    (h : (match st.selectedCategory with
          | some c => fetchCategory c
          | none => fetchRandom) = Except.error e) :
    (fetchRandomArticle fetchRandom fetchCategory st).1.view = ViewState.error e ∧
    (fetchRandomArticle fetchRandom fetchCategory st).1.status =
      some { message := "Failed to fetch article", severity := Severity.error } ∧
    (fetchRandomArticle fetchRandom fetchCategory st).1.currentArticle = st.currentArticle ∧
    (fetchRandomArticle fetchRandom fetchCategory st).1.favorites = st.favorites ∧
    (fetchRandomArticle fetchRandom fetchCategory st).1.theme = st.theme ∧
    (fetchRandomArticle fetchRandom fetchCategory st).1.autoFetchEnabled = st.autoFetchEnabled ∧
    (fetchRandomArticle fetchRandom fetchCategory st).1.visitCount = st.visitCount ∧
    (fetchRandomArticle fetchRandom fetchCategory st).1.selectedCategory = st.selectedCategory ∧
    (fetchRandomArticle fetchRandom fetchCategory st).1.lastArticle = st.lastArticle := by
  cases hc : st.selectedCategory with
  | some c =>
    have h' : fetchCategory c = Except.error e := by
      rw [hc] at h
      exact h
    simp [fetchRandomArticle, hc, h', showStatus, showError, showSkeleton]
  | none =>
    have h' : fetchRandom = Except.error e := by
      rw [hc] at h
      exact h
    simp [fetchRandomArticle, hc, h', showStatus, showError, showSkeleton]

/-- Witness for C6: a failing random fetch leaves the favorites untouched and
reports an error-severity status. -/
theorem fetchRandomArticle_error_frame_witness :
    (fetchRandomArticle (Except.error ProviderError.network) fetchFail exampleState).1.favorites =
      exampleState.favorites ∧
    (fetchRandomArticle (Except.error ProviderError.network) fetchFail exampleState).1.status =
      some { message := "Failed to fetch article", severity := Severity.error } :=
  ⟨(fetchRandomArticle_error_frame (Except.error ProviderError.network) fetchFail exampleState
      ProviderError.network rfl).2.2.2.1,
   (fetchRandomArticle_error_frame (Except.error ProviderError.network) fetchFail exampleState
      ProviderError.network rfl).2.1⟩

/-- C7: every State Store read recovers a missing or unparseable stored value
locally by substituting a default (empty favorites, light theme, auto-fetch
off, zero visits before the per-session-start increment) and, being a total
function, never surfaces an error. -/
theorem store_read_defaults :
    loadFavorites (Except.error ()) = [] ∧
    loadFavorites (Except.ok none) = [] ∧
    loadTheme none = "light" ∧
    loadAutoFetch none = false ∧
    (∀ s : String, s ≠ "true" → loadAutoFetch (some s) = false) ∧
    (loadVisitCount none).1 = 0 + 1 ∧
    (∀ s : String, jsParseInt s = none → (loadVisitCount (some s)).1 = 0 + 1) := by
  refine ⟨rfl, rfl, rfl, rfl, ?_, rfl, ?_⟩
  · intro s hs
    simp [loadAutoFetch, hs]
  · intro s hs
    simp [loadVisitCount, hs]

/-- Witness for C7 at a concrete corrupt stored string. -/
theorem store_read_defaults_witness :
    loadAutoFetch (some "junk") = false ∧ (loadVisitCount (some "junk")).1 = 0 + 1 :=
  ⟨store_read_defaults.2.2.2.2.1 "junk" (by decide),
   store_read_defaults.2.2.2.2.2.2 "junk" (by decide)⟩

theorem fetchRandomArticle_selectedCategory
    (fetchRandom : Except ProviderError Article)
    (fetchCategory : String → Except ProviderError Article) (st : AppState) :
    (fetchRandomArticle fetchRandom fetchCategory st).1.selectedCategory =
      st.selectedCategory := by
  cases hc : st.selectedCategory with
  | some c =>
    cases hres : fetchCategory c <;>
      simp [fetchRandomArticle, hc, hres, showStatus, showError, showSkeleton, displayArticle]
  | none =>
    cases hres : fetchRandom <;>
      simp [fetchRandomArticle, hc, hres, showStatus, showError, showSkeleton, displayArticle]

theorem fetchRandomArticle_call_of_category
    (fetchRandom : Except ProviderError Article)
    (fetchCategory : String → Except ProviderError Article) (st : AppState) (c : String)
    (hc : st.selectedCategory = some c) :
    (fetchRandomArticle fetchRandom fetchCategory st).2 = ProviderCall.category c := by
  cases hres : fetchCategory c <;> simp [fetchRandomArticle, hc, hres]

theorem fetchRandomArticle_call_of_none
    (fetchRandom : Except ProviderError Article)
    (fetchCategory : String → Except ProviderError Article) (st : AppState)
    (hc : st.selectedCategory = none) :
    (fetchRandomArticle fetchRandom fetchCategory st).2 = ProviderCall.random := by
  cases hres : fetchRandom <;> simp [fetchRandomArticle, hc, hres]

theorem handleCategoryClick_selectedCategory
    (fetchCategory : String → Except ProviderError Article) (c : String) (st : AppState) :
    (handleCategoryClick fetchCategory c st).selectedCategory = some c := by
  cases hres : fetchCategory c <;>
    simp [handleCategoryClick, hres, showStatus, showError, showSkeleton, displayArticle]

theorem runNextIntents_category
    (fetchRandom : Except ProviderError Article)
    (fetchCategory : String → Except ProviderError Article) (c : String) :
    ∀ (n : Nat) (st : AppState), st.selectedCategory = some c →
      (runNextIntents fetchRandom fetchCategory n st).1.selectedCategory = some c ∧
      ∀ call ∈ (runNextIntents fetchRandom fetchCategory n st).2,
        call = ProviderCall.category c := by
  intro n
  induction n with
  | zero =>
    intro st hc
    simp [runNextIntents, hc]
  | succ n ih =>
    intro st hc
    have h1 : (fetchRandomArticle fetchRandom fetchCategory st).1.selectedCategory = some c := by
      rw [fetchRandomArticle_selectedCategory, hc]
    obtain ⟨ha, hb⟩ := ih (fetchRandomArticle fetchRandom fetchCategory st).1 h1
    refine ⟨by simpa [runNextIntents] using ha, ?_⟩
    intro call hcall
    simp only [runNextIntents, List.mem_cons] at hcall
    cases hcall with
    | inl h =>
      rw [h]
      exact fetchRandomArticle_call_of_category fetchRandom fetchCategory st c hc
    | inr h => exact hb call h

/-- C8: after selectCategory sets a category, every subsequent "next" intent
requests an article via the category path and never via plain random fetch,
and the selection persists, until clearCategorySelection is called; after
clearing, the next intent uses the plain random path. -/
theorem category_scoping
    (fetchRandom : Except ProviderError Article)
    (fetchCategory : String → Except ProviderError Article)
    (c : String) (st : AppState) (n : Nat) :
    (∀ call ∈ (runNextIntents fetchRandom fetchCategory n
        (handleCategoryClick fetchCategory c st)).2,
      call = ProviderCall.category c) ∧
    (runNextIntents fetchRandom fetchCategory n
        (handleCategoryClick fetchCategory c st)).1.selectedCategory = some c ∧
    (fetchRandomArticle fetchRandom fetchCategory
      (clearCategorySelection (runNextIntents fetchRandom fetchCategory n
        (handleCategoryClick fetchCategory c st)).1)).2 = ProviderCall.random := by
  obtain ⟨ha, hb⟩ := runNextIntents_category fetchRandom fetchCategory c n _
    (handleCategoryClick_selectedCategory fetchCategory c st)
  exact ⟨hb, ha, fetchRandomArticle_call_of_none _ _ _ rfl⟩

/-- Witness for C8: one next intent after selecting the science category uses
the category path, and the first next intent after clearing uses the random
path. -/
theorem category_scoping_witness :
    ProviderCall.category "science" = ProviderCall.category "science" ∧
    (fetchRandomArticle (Except.error ProviderError.network) fetchFail
      (clearCategorySelection (runNextIntents (Except.error ProviderError.network) fetchFail 1
        (handleCategoryClick fetchFail "science" exampleState)).1)).2 = ProviderCall.random :=
  ⟨(category_scoping (Except.error ProviderError.network) fetchFail "science" exampleState 1).1
      (ProviderCall.category "science") (by decide),
   (category_scoping (Except.error ProviderError.network) fetchFail "science" exampleState 1).2.2⟩

/-- C10: removeFavorite removes exactly those favorites whose stored page id
is loosely equal (type-coercing JS equality) to the argument, so the string
argument "123" removes a favorite whose stored page id is the number 123;
likewise openFavorite matches a favorite by loose page-id equality. -/
theorem removeFavorite_loose_equality :
    (∀ (st : AppState) (pid : JSVal) (f : Favorite),
      f ∈ (removeFavorite pid st).favorites ↔
        f ∈ st.favorites ∧ looseEq f.pageId pid = false) ∧
    looseEq (JSVal.num 123) (JSVal.str "123") = true ∧
    (removeFavorite (JSVal.str "123") exampleState123).favorites = [] ∧
    (∀ (st : AppState) (pid : JSVal),
      st.favorites.find? (fun f => looseEq f.pageId pid) = none → openFavorite pid st = st) ∧
    (∀ (st : AppState) (pid : JSVal) (f : Favorite),
      st.favorites.find? (fun f => looseEq f.pageId pid) = some f →
        (openFavorite pid st).currentArticle = some f.toArticle) := by
  refine ⟨?_, by decide, by decide, ?_, ?_⟩
  · intro st pid f
    simp [removeFavorite, showStatus, List.mem_filter]
  · intro st pid h
    simp [openFavorite, h]
  · intro st pid f h
    simp [openFavorite, h, showStatus, displayArticle]

/-- Witness for C10: opening a favorite by the string id "1" finds the stored
favorite with numeric page id 1 and displays its article. -/
theorem removeFavorite_loose_equality_witness :
    (openFavorite (JSVal.str "1") exampleState).currentArticle = some exampleArticle1 :=
  removeFavorite_loose_equality.2.2.2.2 exampleState (JSVal.str "1") exampleFavorite1 (by decide)

end KnExplorer
